import Mathlib

/-!
Shallow embedding of the machine-migrate task module
(`lib/backends/smartos/tasks/machine_migrate.js`): the child-process
session handlers, the identity-verified kill path, the zfs helper
invocations with their error translation, and the per-dataset
size-estimation pipeline.  JavaScript strings and buffers are modelled
as `List Char` / `List Nat`; all functions are executable.
-/

namespace MachineMigrate

/-- JavaScript strings, modelled as character lists. -/
abbrev JStr := List Char

/-- JavaScript whitespace characters relevant to `trim` and `\s`
(ASCII subset actually arising in the tool output handled here). -/
def jsWs (c : Char) : Bool :=
  c == ' ' || c == '\t' || c == '\n' || c == '\r' || c == '\x0b' || c == '\x0c'

/-- `String.prototype.trim`: strip whitespace from both ends. -/
def jsTrim (s : JStr) : JStr :=
  ((s.dropWhile jsWs).reverse.dropWhile jsWs).reverse

/-- `String.prototype.split(sep)` for a single-character separator:
adjacent separators yield empty fields, and the result is never empty. -/
def jsSplit (sep : Char) : JStr → List JStr
  | [] => [[]]
  | c :: cs =>
    match jsSplit sep cs with
    | [] => [[c]]
    | r :: rs => if c = sep then [] :: r :: rs else (c :: r) :: rs

/-- `haystack.indexOf(needle) !== -1` / `Buffer.prototype.indexOf`:
whether `pat` occurs as a contiguous run inside `s`. -/
def occursIn (pat s : JStr) : Bool :=
  s.tails.any (fun t => pat.isPrefixOf t)

/-- Numeric value of a decimal digit string (`Number(match[1])` on the
capture group of `/^size\s+(\d+)$/`, which is all digits). -/
def digitsToNat (s : JStr) : Nat :=
  s.foldl (fun n c => n * 10 + (c.toNat - '0'.toNat)) 0

/-- The regular-expression test `lastLine.match(/^size\s+(\d+)$/)`:
the line must be literally `size`, then one or more whitespace
characters, then one or more digits, and nothing else.  Returns the
numeric value of the digit group on a match. -/
def matchSizeLine (s : JStr) : Option Nat :=
  if ("size".toList).isPrefixOf s then
    let rest := s.drop 4
    let ws := rest.takeWhile jsWs
    let digits := rest.dropWhile jsWs
    if ws ≠ [] ∧ digits ≠ [] ∧ digits.all (·.isDigit) then
      some (digitsToNat digits)
    else none
  else none

/-- The `getEstimate` stdout parse: trim the whole output, split into
lines, take the last line, trim it, and match the `size <integer>`
pattern. -/
def parseEstimateOutput (stdout : JStr) : Option Nat :=
  matchSizeLine (jsTrim ((jsSplit '\n' (jsTrim stdout)).getLastD []))

/-! ### JavaScript stringification of possibly-unassigned variables -/

/-- `String(x)` applied to a variable holding either a byte buffer or
`undefined` (never assigned): `String(undefined)` is the literal text
`"undefined"`, otherwise the buffer is decoded. -/
def jsStringOfBuf (b : Option (List Nat)) : JStr :=
  match b with
  | none => "undefined".toList
  | some bytes => bytes.map Char.ofNat

/-! ### ChildProcessSession (`startChildProcess`) -/

/-- The single result message the worker process sends back:
an optional `error.message`, plus opaque result fields. -/
structure MsgResult where
  error : Option JStr
  deriving DecidableEq, Repr

/-- A completion surfaced through the task: `finish(result)` (with the
parent pid stamped into the result) or `fatal(message, detail?)`. -/
inductive Completion where
  | finish (result : MsgResult) (ppid : Nat)
  | fatal (message : JStr) (detail : Option JStr)
  deriving DecidableEq, Repr

/-- An event delivered to the handlers installed by
`startChildProcess`: a worker result message, a chunk on the worker's
stderr stream, or the worker's exit. -/
inductive SessionEvent where
  | message (r : MsgResult)
  | stderrData (buf : List Nat)
  | exited (code : JStr) (signal : JStr)
  deriving DecidableEq, Repr

def SessionEvent.isMsg : SessionEvent → Bool
  | .message _ => true
  | _ => false

def SessionEvent.isExited : SessionEvent → Bool
  | .exited _ _ => true
  | _ => false

/-- Mutable state of `startChildProcess`: the `handledResponse` flag,
the one-shot guard installed by the `once` wrapper around the message
handler, the `limitedStderr` buffer (initially unassigned), and the
record of every `finish`/`fatal` call made on the task. -/
structure SessionState where
  handledResponse : Bool
  msgFired : Bool
  limitedStderr : Option (List Nat)
  completions : List Completion
  deriving DecidableEq, Repr

def initialSession : SessionState :=
  { handledResponse := false, msgFired := false,
    limitedStderr := none, completions := [] }

/-- `Buffer.from('\n...\n')`: the elision marker inserted between the
first and last 2500 bytes of stderr. -/
def marker : List Nat := [10, 46, 46, 46, 10]

/-- Last `n` elements of a buffer (`Buffer.prototype.slice(-n)`). -/
def lastN (l : List Nat) (n : Nat) : List Nat := l.drop (l.length - n)

/-- The bounding step of the stderr handler: once the buffer length
exceeds 5000, keep the first 2500 bytes, the elision marker, and the
last 2500 bytes. -/
def elide (b : List Nat) : List Nat :=
  if b.length > 5000 then
    b.take 2500 ++ marker ++ lastN b 2500
  else b

/-- One stderr `data` event: append the chunk to `limitedStderr`
(first assignment if it was never set) and apply the bound. -/
def stderrStep (st : Option (List Nat)) (buf : List Nat) : Option (List Nat) :=
  some (elide (match st with | none => buf | some b => b ++ buf))

/-- The capture buffer after a whole sequence of stderr chunks. -/
def runCapture (chunks : List (List Nat)) : Option (List Nat) :=
  chunks.foldl stderrStep none

/-- `util.format('machine-migrate exit error (code %s, signal %s)', code, signal)`. -/
def exitMessage (code signal : JStr) : JStr :=
  "machine-migrate exit error (code ".toList ++ code
    ++ ", signal ".toList ++ signal ++ ")".toList

/-- One event handled by the `startChildProcess` handlers.  The message
handler is wrapped in `once`, sets `handledResponse`, and calls `fatal`
on a worker error or `finish` with the parent pid stamped in.  The exit
handler calls `fatal` with the stringified `limitedStderr` only when no
response was handled. -/
def sessionStep (ppid : Nat) (st : SessionState) (ev : SessionEvent) : SessionState :=
  match ev with
  | .message r =>
    if st.msgFired then st
    else
      { st with
        msgFired := true
        handledResponse := true
        completions := st.completions ++
          [match r.error with
            | some m => Completion.fatal m none
            | none => Completion.finish r ppid] }
  | .stderrData buf =>
    { st with limitedStderr := stderrStep st.limitedStderr buf }
  | .exited code signal =>
    if st.handledResponse then st
    else
      { st with
        completions := st.completions ++
          [Completion.fatal (exitMessage code signal)
            (some (jsStringOfBuf st.limitedStderr))] }

/-- The session state after a sequence of delivered events. -/
def runSession (ppid : Nat) (evts : List SessionEvent) : SessionState :=
  evts.foldl (sessionStep ppid) initialSession

/-- The worker entry point spawned for `action === 'sync'`:
`__dirname + '/../bin/machine-migrate-send.js'`. -/
def migrateSendBin (dirname : JStr) : JStr :=
  dirname ++ "/../bin/machine-migrate-send.js".toList

/-- The worker entry point spawned for `action === 'receive'`:
`__dirname + '/../bin/machine-migrate-receive.js'`. -/
def migrateReceiveBin (dirname : JStr) : JStr :=
  dirname ++ "/../bin/machine-migrate-receive.js".toList

/-! ### zfs error translation (`zfsErrorStr` / `zfsError`) -/

/-- The error object `child_process.execFile` hands to its callback:
`killed` is set when the invocation was terminated by its timeout. -/
structure ExecErr where
  killed : Bool
  message : JStr
  deriving DecidableEq, Repr

/-- The `VError` produced by `zfsError`, carrying its message and the
stderr attached to it. -/
structure ZErr where
  message : JStr
  stderr : JStr
  deriving DecidableEq, Repr

/-- `zfsErrorStr(error, stderr)`: empty for no error; the timeout text
when the process was killed; otherwise `error.message`, falling back to
the stderr text. -/
def zfsErrorStr (error : Option ExecErr) (stderr : JStr) : JStr :=
  match error with
  | none => []
  | some e =>
    if e.killed then "Process killed due to timeout.".toList
    else if e.message ≠ [] then e.message
    else stderr

/-- `zfsError(prefixMsg, error, stderr)`. -/
def zfsError (prefixMsg : JStr) (error : Option ExecErr) (stderr : JStr) : ZErr :=
  { message := prefixMsg ++ ": ".toList ++ zfsErrorStr error stderr
    stderr := stderr }

/-- The stderr text `deleteSnapshot` treats as benign. -/
def notFoundPattern : JStr :=
  "could not find any snapshots to destroy".toList

/-- The `deleteSnapshot` execFile callback: an error is surfaced as a
`zfsError` unless the stderr shows the snapshot did not exist. -/
def deleteSnapshotCb (err : Option ExecErr) (stderr : JStr) : Option ZErr :=
  if err.isSome ∧ occursIn notFoundPattern stderr = false then
    some (zfsError ("zfs snapshot destroy failure".toList) err stderr)
  else none

/-! ### External tool invocations and their timeouts -/

/-- One `child_process.execFile` invocation: command, arguments, and
the timeout passed in its options (none when no options are given). -/
structure ToolInvocation where
  cmd : JStr
  args : List JStr
  timeoutMs : Option Nat
  deriving DecidableEq, Repr

/-- `deleteSnapshot`: `zfs destroy -r <snapshot>` with a 5-minute timeout. -/
def deleteSnapshotInvocation (snapshot : JStr) : ToolInvocation :=
  { cmd := "/usr/sbin/zfs".toList
    args := ["destroy".toList, "-r".toList, snapshot]
    timeoutMs := some (5 * 60 * 1000) }

/-- `createSnapshot`: `zfs snapshot -r <snapshot>` with a 5-minute timeout. -/
def createSnapshotInvocation (snapshot : JStr) : ToolInvocation :=
  { cmd := "/usr/sbin/zfs".toList
    args := ["snapshot".toList, "-r".toList, snapshot]
    timeoutMs := some (5 * 60 * 1000) }

/-- `getEstimate`: the dry-run replication size estimate with a
5-minute timeout. -/
def getEstimateInvocation (snapshot : JStr) : ToolInvocation :=
  { cmd := "/usr/sbin/zfs".toList
    args := ["send".toList, "--dryrun".toList, "--parsable".toList,
             "--replicate".toList, snapshot]
    timeoutMs := some (5 * 60 * 1000) }

/-- `listSnapshots` in `removeSyncSnapshots`: `zfs list -t snapshot -r
-H -o name <dataset>`, invoked with no options and hence no timeout. -/
def listSnapshotsInvocation (dataset : JStr) : ToolInvocation :=
  { cmd := "/usr/sbin/zfs".toList
    args := ["list".toList, "-t".toList, "snapshot".toList, "-r".toList,
             "-H".toList, "-o".toList, "name".toList, dataset]
    timeoutMs := none }

/-! ### Identity-verified termination (`killChild`) -/

/-- Generic task outcome of a behavior that finishes with a payload of
type `α` or fails with a message. -/
inductive Outcome (α : Type) where
  | finish (result : α)
  | fatal (message : JStr)
  deriving DecidableEq, Repr

/-- The parameters `killChild` reads from the payload: `pid` (none
models an absent/falsy value) and the recorded parent pid. -/
structure KillPayload where
  pid : Option Nat
  ppid : JStr
  deriving DecidableEq, Repr

/-- The host-dependent observations `killChild` makes: whether
`process.kill(pid, 0)` succeeds, the `ps` output (none models a throw),
the `/proc/<pid>/argv` content (none models a throw), and whether the
final `process.kill(pid, 'SIGTERM')` succeeds (its failure is only
logged). -/
structure KillEnv where
  processAlive : Bool
  psOutput : Option JStr
  argvContent : Option JStr
  killOk : Bool
  deriving DecidableEq, Repr

/-- Result of the kill behavior: whether a termination signal was
actually attempted, and the task outcome. -/
structure KillResult where
  signalSent : Bool
  outcome : Outcome Unit
  deriving DecidableEq, Repr

/-- The argv substring `killChild` requires before signalling. -/
def killArgvPattern : JStr := "/machine-migrate.js".toList

/-- The `killChild` behavior.  With no pid the task fails immediately;
otherwise each failed check (liveness, `ps` availability, parent pid,
zone, argv readability, argv substring) finishes the task successfully
without signalling, and only when every check passes is `SIGTERM`
attempted — after which the task finishes regardless of whether the
signal could be delivered. -/
def killChild (payload : KillPayload) (env : KillEnv) : KillResult :=
  match payload.pid with
  | none =>
    { signalSent := false
      outcome := .fatal "No PID supplied to kill_migration_process task".toList }
  | some _ =>
    if env.processAlive = false then
      { signalSent := false, outcome := .finish () }
    else
      match env.psOutput with
      | none => { signalSent := false, outcome := .finish () }
      | some buf =>
        let argSplit := jsSplit ' ' buf
        if argSplit.getD 0 [] ≠ payload.ppid then
          { signalSent := false, outcome := .finish () }
        else if argSplit.getD 1 [] ≠ "global".toList then
          { signalSent := false, outcome := .finish () }
        else
          match env.argvContent with
          | none => { signalSent := false, outcome := .finish () }
          | some argv =>
            if occursIn killArgvPattern argv = false then
              { signalSent := false, outcome := .finish () }
            else
              { signalSent := true, outcome := .finish () }

/-- Liveness check: `process.kill(pid, 0)` did not throw. -/
def checkAlive (env : KillEnv) : Bool := env.processAlive

/-- Parent-pid check: the first `ps` output field equals the recorded
parent pid (false when `ps` itself could not be run). -/
def checkPpid (ppid : JStr) (env : KillEnv) : Bool :=
  match env.psOutput with
  | none => false
  | some buf => decide ((jsSplit ' ' buf).getD 0 [] = ppid)

/-- Zone check: the second `ps` output field equals `global`. -/
def checkZone (env : KillEnv) : Bool :=
  match env.psOutput with
  | none => false
  | some buf => decide ((jsSplit ' ' buf).getD 1 [] = "global".toList)

/-- Argv check: `/proc/<pid>/argv` is readable and contains the
expected worker program identifier. -/
def checkArgv (env : KillEnv) : Bool :=
  match env.argvContent with
  | none => false
  | some argv => occursIn killArgvPattern argv

/-! ### The per-dataset estimation pipeline (`estimate`) -/

/-- The outcome of one external invocation: callback error, stdout,
stderr. -/
structure ExecOutcome where
  err : Option ExecErr
  stdout : JStr
  stderr : JStr
  deriving DecidableEq, Repr

/-- The external-world behavior seen by one dataset's pipeline: the
results of the delete-previous, create, estimate and cleanup
invocations, plus the result of the compensating delete run by the
pipeline completion callback (its error is ignored). -/
structure DatasetEnv where
  deletePrevExec : ExecOutcome
  createExec : ExecOutcome
  estimateExec : ExecOutcome
  cleanupExec : ExecOutcome
  compensateExec : ExecOutcome
  deriving DecidableEq, Repr

/-- An error propagated through the estimation pipeline: a translated
zfs error or the plain `Error` raised when the size pattern is absent. -/
inductive PipeErr where
  | zfs (e : ZErr)
  | generic (msg : JStr)
  deriving DecidableEq, Repr

/-- Steps 1–3 of the pipeline (delete previous snapshot, create
snapshot, dry-run estimate with `size` parse); on success yields the
parsed size, which the source accumulates into `estimatedSize` at the
end of step 3. -/
def steps123 (env : DatasetEnv) : Except PipeErr Nat :=
  match deleteSnapshotCb env.deletePrevExec.err env.deletePrevExec.stderr with
  | some e => .error (.zfs e)
  | none =>
    match env.createExec.err with
    | some e =>
      .error (.zfs (zfsError "zfs snapshot failure".toList (some e)
        env.createExec.stderr))
    | none =>
      match env.estimateExec.err with
      | some e =>
        .error (.zfs (zfsError "zfs snapshot error".toList (some e)
          env.estimateExec.stderr))
      | none =>
        match parseEstimateOutput env.estimateExec.stdout with
        | none => .error (.generic "Unable to get zfs send estimate".toList)
        | some n => .ok n

/-- Whether `ctx.snapshotCreated` was set: steps 1 and 2 succeeded. -/
def snapshotCreatedFlag (env : DatasetEnv) : Bool :=
  (deleteSnapshotCb env.deletePrevExec.err env.deletePrevExec.stderr).isNone
    && env.createExec.err.isNone

/-- The whole four-step pipeline: steps 1–3, then the cleanup delete. -/
def pipelineOutcome (env : DatasetEnv) : Except PipeErr Nat :=
  match steps123 env with
  | .error e => .error e
  | .ok n =>
    match deleteSnapshotCb env.cleanupExec.err env.cleanupExec.stderr with
    | some e => .error (.zfs e)
    | none => .ok n

/-- The calls `_onEstimateOneDatasetPipelineCb` makes to its completion
continuation `next`, in order.  On success it calls `next()` once.  On
an error with `ctx.snapshotCreated` set it starts the compensating
delete, falls through to a synchronous `next(err)`, and the delete's
callback later calls `next(err)` again (ignoring the delete's own
error); without the flag it calls `next(err)` once. -/
def runOneDatasetNextCalls (env : DatasetEnv) : List (Option PipeErr) :=
  match pipelineOutcome env with
  | .ok _ => [none]
  | .error e =>
    if snapshotCreatedFlag env then [some e, some e] else [some e]

/-- Size contributed by one dataset to the shared `estimatedSize`
accumulator: the value parsed at step 3 when steps 1–3 succeeded. -/
def sizeContribution (env : DatasetEnv) : Nat :=
  match steps123 env with
  | .ok n => n
  | .error _ => 0

/-- The first per-dataset pipeline error, if any (the error
`vasync.forEachParallel` hands to the completion callback). -/
def firstPipelineError : List DatasetEnv → Option PipeErr
  | [] => none
  | env :: rest =>
    match pipelineOutcome env with
    | .error e => some e
    | .ok _ => firstPipelineError rest

/-- The `estimate` task over its datasets: fatal on any pipeline
error, otherwise finish with `{size: estimatedSize}`. -/
def estimateTask (envs : List DatasetEnv) : Except PipeErr Nat :=
  match firstPipelineError envs with
  | some e => .error e
  | none => .ok (envs.foldl (fun acc env => acc + sizeContribution env) 0)

/-- A fully successful dataset environment with the given dry-run
stdout: every invocation succeeds with empty stderr. -/
def okDatasetEnv (stdout : JStr) : DatasetEnv :=
  { deletePrevExec := { err := none, stdout := [], stderr := [] }
    createExec := { err := none, stdout := [], stderr := [] }
    estimateExec := { err := none, stdout := stdout, stderr := [] }
    cleanupExec := { err := none, stdout := [], stderr := [] }
    compensateExec := { err := none, stdout := [], stderr := [] } }

/-! ### Direct synchronous behaviors -/

/-- `setupFilesystem`: `buf` is assigned only by a successful
`execFileSync`; in the catch branch the never-assigned `buf` is
stringified into the fatal message. -/
def setupFilesystem (execResult : Except Unit (List Nat)) : Outcome Unit :=
  let buf : Option (List Nat) := none
  match execResult with
  | .error _ => .fatal (jsStringOfBuf buf)
  | .ok _ => .finish ()

/-- `setDoNotInventory`: same structure as `setupFilesystem`, running
`vmadm update <uuid> do_not_inventory=<value>`. -/
def setDoNotInventory (execResult : Except Unit (List Nat)) : Outcome Unit :=
  let buf : Option (List Nat) := none
  match execResult with
  | .error _ => .fatal (jsStringOfBuf buf)
  | .ok _ => .finish ()

/-- `setAutoboot`: same structure, running
`vmadm update <uuid> autoboot=<value>`. -/
def setAutoboot (execResult : Except Unit (List Nat)) : Outcome Unit :=
  let buf : Option (List Nat) := none
  match execResult with
  | .error _ => .fatal (jsStringOfBuf buf)
  | .ok _ => .finish ()

/-! ## Helper lemmas -/

theorem length_lastN (l : List Nat) (n : Nat) (h : n ≤ l.length) :
    (lastN l n).length = n := by
  simp [lastN]; omega

theorem lastN_append_le (X Y : List Nat) (n : Nat) (h : n ≤ Y.length) :
    lastN (X ++ Y) n = lastN Y n := by
  unfold lastN
  rw [List.length_append]
  have he : X.length + Y.length - n = X.length + (Y.length - n) := by omega
  rw [he, List.drop_append]

theorem lastN_append_ge (X Y : List Nat) (n : Nat) (h : Y.length ≤ n) :
    lastN (X ++ Y) n = lastN X (n - Y.length) ++ Y := by
  unfold lastN
  rw [List.length_append]
  have h2 : X.length + Y.length - n ≤ X.length := by omega
  rw [List.drop_append_of_le_length h2]
  have he : X.length + Y.length - n = X.length - (n - Y.length) := by omega
  rw [he]

theorem lastN_lastN (X : List Nat) (m k : Nat) (h : k ≤ m) :
    lastN (lastN X m) k = lastN X k := by
  unfold lastN
  rw [List.length_drop, List.drop_drop]
  congr 1
  omega

theorem elide_of_le (S : List Nat) (h : S.length ≤ 5000) : elide S = S := by
  unfold elide
  rw [if_neg]
  omega

theorem elide_of_gt (S : List Nat) (h : 5000 < S.length) :
    elide S = S.take 2500 ++ marker ++ lastN S 2500 := by
  unfold elide
  rw [if_pos]
  omega

theorem length_elide_of_gt (S : List Nat) (h : 5000 < S.length) :
    (elide S).length = 5005 := by
  rw [elide_of_gt S h]
  rw [List.length_append, List.length_append, List.length_take,
    length_lastN S 2500 (by omega)]
  simp [marker]
  omega

/-- Collapsing an already-collapsed buffer extended by a new chunk is
the same as collapsing the full stream: the retained first 2500 bytes
and last 2500 bytes are unchanged by earlier collapses. -/
theorem elide_append_elide (S c : List Nat) :
    elide (elide S ++ c) = elide (S ++ c) := by
  rcases le_or_lt S.length 5000 with hS | hS
  · rw [elide_of_le S hS]
  · have hT := elide_of_gt S hS
    have hTlen := length_elide_of_gt S hS
    have hL1 : 5000 < (elide S ++ c).length := by
      rw [List.length_append, hTlen]; omega
    have hL2 : 5000 < (S ++ c).length := by
      rw [List.length_append]; omega
    rw [elide_of_gt _ hL1, elide_of_gt _ hL2]
    have htake : (elide S ++ c).take 2500 = (S ++ c).take 2500 := by
      rw [hT, List.append_assoc, List.append_assoc]
      rw [List.take_left' (by rw [List.length_take]; omega)]
      rw [List.take_append_of_le_length (by omega)]
    have hlast : lastN (elide S ++ c) 2500 = lastN (S ++ c) 2500 := by
      rcases le_or_lt 2500 c.length with hc | hc
      · rw [lastN_append_le _ _ _ hc, lastN_append_le _ _ _ hc]
      · rw [lastN_append_ge _ _ _ (by omega), lastN_append_ge _ _ _ (by omega)]
        congr 1
        rw [hT]
        rw [lastN_append_le _ _ _ (by rw [length_lastN S 2500 (by omega)]; omega)]
        exact lastN_lastN S 2500 (2500 - c.length) (by omega)
    rw [htake, hlast]

theorem foldl_capture (cs : List (List Nat)) :
    ∀ (S : List Nat),
      cs.foldl stderrStep (some (elide S)) = some (elide (S ++ cs.flatten)) := by
  induction cs with
  | nil => intro S; simp
  | cons c cs ih =>
    intro S
    rw [List.foldl_cons]
    have hstep : stderrStep (some (elide S)) c = some (elide (S ++ c)) := by
      unfold stderrStep
      rw [elide_append_elide]
    rw [hstep, ih (S ++ c), List.flatten_cons, List.append_assoc]

/-- Closed form of the stderr capture: the buffer is always the
collapse of the full stream received so far. -/
theorem runCapture_cons (c : List Nat) (cs : List (List Nat)) :
    runCapture (c :: cs) = some (elide ((c :: cs).flatten)) := by
  unfold runCapture
  rw [List.foldl_cons]
  have h0 : stderrStep none c = some (elide c) := rfl
  rw [h0, foldl_capture cs c, List.flatten_cons]

/-- Invariant of the session state over message/stderr events: the
`handledResponse` flag agrees with the once-guard, and the number of
completions is 1 exactly when the message handler has fired. -/
def sessInv (st : SessionState) : Prop :=
  st.handledResponse = st.msgFired ∧
    st.completions.length = (if st.msgFired then 1 else 0)

theorem sessionStep_nonExit_inv (p : Nat) (st : SessionState) (ev : SessionEvent)
    (hev : ev.isExited = false) (h : sessInv st) : sessInv (sessionStep p st ev) := by
  rcases h with ⟨h1, h2⟩
  cases ev with
  | message r =>
    by_cases hf : st.msgFired
    · simpa [sessionStep, hf] using ⟨h1, h2⟩
    · constructor
      · simp [sessionStep, hf]
      · simp [sessionStep, hf, List.length_append, h2]
  | stderrData buf =>
    exact ⟨h1, h2⟩
  | exited code signal => simp [SessionEvent.isExited] at hev

theorem foldl_nonExit_inv (p : Nat) (pre : List SessionEvent) :
    ∀ st, (∀ e ∈ pre, e.isExited = false) → sessInv st →
      sessInv (pre.foldl (sessionStep p) st) := by
  induction pre with
  | nil => intro st _ h; exact h
  | cons e pre ih =>
    intro st hall h
    rw [List.foldl_cons]
    exact ih _ (fun x hx => hall x (List.mem_cons_of_mem e hx))
      (sessionStep_nonExit_inv p st e (hall e (List.mem_cons_self e pre)) h)

theorem foldl_stderrOnly_completions (p : Nat) (post : List SessionEvent) :
    ∀ st, (∀ e ∈ post, e.isMsg = false ∧ e.isExited = false) →
      (post.foldl (sessionStep p) st).completions = st.completions := by
  induction post with
  | nil => intro st _; rfl
  | cons e post ih =>
    intro st hall
    rw [List.foldl_cons]
    have he := hall e (List.mem_cons_self e post)
    have hrest : ∀ x ∈ post, x.isMsg = false ∧ x.isExited = false :=
      fun x hx => hall x (List.mem_cons_of_mem e hx)
    cases e with
    | message r => simp [SessionEvent.isMsg] at he
    | stderrData buf =>
      rw [ih _ hrest]
      rfl
    | exited code signal => simp [SessionEvent.isExited] at he

theorem occursIn_cons (pat : JStr) (c : Char) (s : JStr) :
    occursIn pat (c :: s) = (pat.isPrefixOf (c :: s) || occursIn pat s) := by
  simp [occursIn, List.tails_cons]

theorem isPrefixOf_append_false (pat x b : JStr)
    (hx : pat.isPrefixOf x = false)
    (hb2 : ∀ k, k < pat.length → (pat.drop k).isPrefixOf b = false) :
    pat.isPrefixOf (x ++ b) = false := by
  by_contra hcon
  have hpref : pat <+: x ++ b := by
    rw [← List.isPrefixOf_iff_prefix]
    simpa using hcon
  rcases le_or_lt pat.length x.length with hle | hlt
  · have hpx : pat <+: x :=
      List.prefix_of_prefix_length_le hpref (List.prefix_append x b) hle
    rw [← List.isPrefixOf_iff_prefix] at hpx
    rw [hpx] at hx
    cases hx
  · have hxp : x <+: pat :=
      List.prefix_of_prefix_length_le (List.prefix_append x b) hpref (le_of_lt hlt)
    obtain ⟨u, hu⟩ := hxp
    have hdrop : pat.drop x.length = u := by
      rw [← hu, List.drop_left]
    have hub : u <+: b := by
      obtain ⟨t, ht⟩ := hpref
      rw [← hu, List.append_assoc] at ht
      exact ⟨t, List.append_cancel_left ht⟩
    have hk := hb2 x.length hlt
    rw [hdrop] at hk
    rw [← List.isPrefixOf_iff_prefix] at hub
    rw [hub] at hk
    cases hk

/-- A pattern absent from `a`, absent from `b`, and unable to straddle
the boundary (no proper tail of the pattern is a prefix of `b`) is
absent from `a ++ b`. -/
theorem occursIn_append_false (pat b : JStr)
    (hb : occursIn pat b = false)
    (hb2 : ∀ k, k < pat.length → (pat.drop k).isPrefixOf b = false) :
    ∀ a, occursIn pat a = false → occursIn pat (a ++ b) = false := by
  intro a
  induction a with
  | nil => intro _; simpa using hb
  | cons c a ih =>
    intro ha
    rw [occursIn_cons] at ha
    have h1 : pat.isPrefixOf (c :: a) = false := by
      cases hpp : pat.isPrefixOf (c :: a) with
      | false => rfl
      | true => rw [hpp] at ha; cases ha
    have h2 : occursIn pat a = false := by
      cases hoo : occursIn pat a with
      | false => rfl
      | true => rw [hoo, Bool.or_true] at ha; cases ha
    rw [List.cons_append, occursIn_cons, ih h2, Bool.or_false]
    rw [← List.cons_append]
    exact isPrefixOf_append_false pat (c :: a) b h1 hb2

/-- With a pid supplied, `killChild` always finishes the task, and the
signal is attempted exactly when the four identity checks all pass. -/
theorem killChild_eq (pid : Nat) (ppid : JStr) (env : KillEnv) :
    killChild { pid := some pid, ppid := ppid } env =
      { signalSent := checkAlive env && checkPpid ppid env
          && checkZone env && checkArgv env
        outcome := .finish () } := by
  unfold killChild checkAlive checkPpid checkZone checkArgv
  rcases env with ⟨alive, ps, argv, killOk⟩
  cases alive with
  | false => simp
  | true =>
    cases ps with
    | none => simp
    | some buf =>
      simp only
      by_cases hp : (jsSplit ' ' buf).getD 0 [] = ppid
      · by_cases hz : (jsSplit ' ' buf).getD 1 [] = "global".toList
        · cases argv with
          | none => simp [hp, hz]
          | some av =>
            by_cases ho : occursIn killArgvPattern av = false
            · simp_all
            · have hot : occursIn killArgvPattern av = true := by
                simpa using ho
              simp_all
        · cases argv <;> simp_all
      · cases argv <;> simp_all

theorem steps123_of_ok (env : DatasetEnv) (n : Nat)
    (h : pipelineOutcome env = .ok n) : steps123 env = .ok n := by
  unfold pipelineOutcome at h
  cases hs : steps123 env with
  | error e => rw [hs] at h; cases h
  | ok m =>
    rw [hs] at h
    cases hc : deleteSnapshotCb env.cleanupExec.err env.cleanupExec.stderr with
    | some e => rw [hc] at h; cases h
    | none => rw [hc] at h; cases h; rfl

theorem sizeContribution_of_ok (env : DatasetEnv) (n : Nat)
    (h : pipelineOutcome env = .ok n) : sizeContribution env = n := by
  unfold sizeContribution
  rw [steps123_of_ok env n h]

theorem firstPipelineError_none (pairs : List (DatasetEnv × Nat))
    (h : ∀ p ∈ pairs, pipelineOutcome p.1 = .ok p.2) :
    firstPipelineError (pairs.map Prod.fst) = none := by
  induction pairs with
  | nil => rfl
  | cons p pairs ih =>
    rw [List.map_cons]
    unfold firstPipelineError
    rw [h p (List.mem_cons_self p pairs)]
    exact ih (fun q hq => h q (List.mem_cons_of_mem p hq))

theorem foldl_sizes (pairs : List (DatasetEnv × Nat))
    (h : ∀ p ∈ pairs, pipelineOutcome p.1 = .ok p.2) :
    ∀ acc, (pairs.map Prod.fst).foldl (fun a env => a + sizeContribution env) acc
      = acc + (pairs.map Prod.snd).sum := by
  induction pairs with
  | nil => intro acc; simp
  | cons p pairs ih =>
    intro acc
    rw [List.map_cons, List.foldl_cons,
      sizeContribution_of_ok p.1 p.2 (h p (List.mem_cons_self p pairs)),
      ih (fun q hq => h q (List.mem_cons_of_mem p hq))]
    rw [List.map_cons, List.sum_cons]
    omega

/-! ## Claims -/

/-- C1 (counterexample): the claim's "in any order" fails.  If the
process-exit event is delivered before the (single) result message, the
exit handler calls `fatal` (no response was handled yet) and the
once-wrapped message handler still fires afterwards and calls `finish`:
two completions, not exactly one. -/
theorem C1_counterexample_exit_then_message :
    (runSession 1 [SessionEvent.exited "0".toList "null".toList,
      SessionEvent.message { error := none }]).completions.length ≠ 1 := by
  decide

/-- C1 (amended): for every delivery sequence containing one
process-exit event that is not followed by any result message
(arbitrary result messages, duplicates, and stderr chunks before it;
only non-message, non-exit events after it), `finish`/`fatal` together
are invoked exactly once: the once-guard makes the result handler fire
at most once, and the exit handler completes the task only if no
result message was handled before the exit. -/
theorem C1_exactly_once_when_no_message_after_exit (p : Nat)
    (pre post : List SessionEvent) (code signal : JStr)
    (hpre : ∀ e ∈ pre, e.isExited = false)
    (hpost : ∀ e ∈ post, e.isMsg = false ∧ e.isExited = false) :
    (runSession p (pre ++ SessionEvent.exited code signal :: post)).completions.length
      = 1 := by
  unfold runSession
  rw [List.foldl_append, List.foldl_cons]
  have hinv : sessInv (pre.foldl (sessionStep p) initialSession) :=
    foldl_nonExit_inv p pre initialSession hpre ⟨rfl, rfl⟩
  rw [foldl_stderrOnly_completions p post _ hpost]
  rcases hinv with ⟨h1, h2⟩
  set st1 := pre.foldl (sessionStep p) initialSession with hst1
  by_cases hh : st1.handledResponse = true
  · have hf : st1.msgFired = true := h1 ▸ hh
    simp [sessionStep, hh, h2, hf]
  · have hh' : st1.handledResponse = false := by simpa using hh
    have hf : st1.msgFired = false := by rw [← h1]; exact hh'
    simp [sessionStep, hh', h2, hf]

/-- C1 (witness): a duplicate-message sequence followed by exit and a
late stderr chunk completes exactly once. -/
theorem C1_exactly_once_witness :
    (∀ e ∈ [SessionEvent.message { error := none },
            SessionEvent.message { error := none }], e.isExited = false) ∧
    (∀ e ∈ [SessionEvent.stderrData [65]], e.isMsg = false ∧ e.isExited = false) ∧
    (runSession 1 ([SessionEvent.message { error := none },
        SessionEvent.message { error := none }]
      ++ SessionEvent.exited "0".toList "null".toList
        :: [SessionEvent.stderrData [65]])).completions.length = 1 :=
  ⟨by decide, by decide,
   C1_exactly_once_when_no_message_after_exit 1
     [SessionEvent.message { error := none }, SessionEvent.message { error := none }]
     [SessionEvent.stderrData [65]] "0".toList "null".toList
     (by decide) (by decide)⟩

/-- C2 (code bug): when the snapshot was created and a later step
fails, `_onEstimateOneDatasetPipelineCb` starts the compensating
delete but is missing a `return`, so it calls its completion
continuation with the original error twice — once synchronously and
once from the compensating delete's callback — instead of exactly
once.  Evaluated here at a failing input: snapshot creation succeeds
and the dry-run size step fails. -/
theorem C2_double_callback_on_compensated_failure :
    runOneDatasetNextCalls
      { deletePrevExec := { err := none, stdout := [], stderr := [] }
        createExec := { err := none, stdout := [], stderr := [] }
        estimateExec := { err := some { killed := false, message := "exit 1".toList }
                          stdout := [], stderr := "send failed".toList }
        cleanupExec := { err := none, stdout := [], stderr := [] }
        compensateExec := { err := none, stdout := [], stderr := [] } } =
    [some (.zfs (zfsError "zfs snapshot error".toList
        (some { killed := false, message := "exit 1".toList }) "send failed".toList)),
     some (.zfs (zfsError "zfs snapshot error".toList
        (some { killed := false, message := "exit 1".toList }) "send failed".toList))] := by
  decide

/-- C3: with a pid supplied, the kill task always finishes successfully
(no `fatal`), a `SIGTERM` is attempted exactly when the liveness,
parent-pid, zone and argv checks all pass, and whether the final
`process.kill` itself succeeds has no effect on the result. -/
theorem C3_kill_safety (pid : Nat) (ppid : JStr) (env : KillEnv) :
    (killChild { pid := some pid, ppid := ppid } env).outcome = .finish () ∧
    (killChild { pid := some pid, ppid := ppid } env).signalSent =
      (checkAlive env && checkPpid ppid env && checkZone env && checkArgv env) ∧
    (∀ b : Bool, killChild { pid := some pid, ppid := ppid } { env with killOk := b }
      = killChild { pid := some pid, ppid := ppid } env) := by
  refine ⟨?_, ?_, ?_⟩
  · rw [killChild_eq]
  · rw [killChild_eq]
  · intro b
    rw [killChild_eq, killChild_eq]
    rcases env with ⟨alive, ps, argv, killOk⟩
    rfl

/-- C4 (counterexample): the claim's "retained size never exceeds 5000
bytes" fails: a single 5001-byte chunk collapses to first 2500 bytes +
5-byte elision marker + last 2500 bytes = 5005 bytes. -/
theorem C4_counterexample_size_5005 :
    ¬ ((runCapture [List.replicate 5001 120]).getD []).length ≤ 5000 := by
  rw [runCapture_cons]
  have hlen :
      5000 < ((List.replicate 5001 (120:Nat)) :: ([]:List (List Nat))).flatten.length := by
    rw [List.flatten_cons, List.flatten_nil, List.append_nil, List.length_replicate]
    omega
  rw [Option.getD_some]
  rw [length_elide_of_gt _ hlen]
  omega

/-- C4 (amended): for every chunk sequence whose cumulative length
exceeds 5000 bytes, the captured output is exactly the first 2500
bytes of the stream, the elision marker, and the last 2500 bytes of
the stream seen so far, and its retained size is exactly 5005 bytes
(2500 + the 5-byte marker + 2500) — bounded regardless of how much
additional input arrives. -/
theorem C4_bounded_capture (chunks : List (List Nat))
    (h : 5000 < chunks.flatten.length) :
    runCapture chunks
      = some (chunks.flatten.take 2500 ++ marker ++ lastN chunks.flatten 2500) ∧
    (chunks.flatten.take 2500 ++ marker ++ lastN chunks.flatten 2500).length
      = 5005 := by
  cases chunks with
  | nil => simp at h
  | cons c cs =>
    constructor
    · rw [runCapture_cons, elide_of_gt _ h]
    · have hl := length_elide_of_gt _ h
      rw [elide_of_gt _ h] at hl
      exact hl

/-- C4 (witness): a single 5001-byte chunk exceeds the bound and is
collapsed to the first 2500 bytes, the marker and the last 2500. -/
theorem C4_bounded_capture_witness :
    5000 < ([List.replicate 5001 (120:Nat)]).flatten.length ∧
    runCapture [List.replicate 5001 (120:Nat)]
      = some (([List.replicate 5001 (120:Nat)]).flatten.take 2500 ++ marker
          ++ lastN (([List.replicate 5001 (120:Nat)]).flatten) 2500) :=
  ⟨by rw [List.flatten_cons, List.flatten_nil, List.append_nil,
      List.length_replicate]; omega,
   (C4_bounded_capture [List.replicate 5001 120]
     (by rw [List.flatten_cons, List.flatten_nil, List.append_nil,
        List.length_replicate]; omega)).1⟩

/-- C5 (counterexample): the snapshot-list invocation of
`removeSyncSnapshots` passes no options to `execFile` and therefore
has no 5-minute timeout, refuting "every external tool invocation …
is issued with a 300000 ms timeout". -/
theorem C5_counterexample_list_no_timeout :
    (listSnapshotsInvocation "zones/abc".toList).timeoutMs ≠ some 300000 := by
  decide

/-- C5 (amended): the snapshot-delete, snapshot-create, and dry-run
size-estimate invocations are issued with a 300000 ms timeout, and a
timeout-killed invocation surfaces as the error text "Process killed
due to timeout."; the snapshot-list invocation is issued with no
timeout at all. -/
theorem C5_timeouts (s d : JStr) :
    (deleteSnapshotInvocation s).timeoutMs = some 300000 ∧
    (createSnapshotInvocation s).timeoutMs = some 300000 ∧
    (getEstimateInvocation s).timeoutMs = some 300000 ∧
    (listSnapshotsInvocation d).timeoutMs = none ∧
    (∀ msg stderr : JStr,
      zfsErrorStr (some { killed := true, message := msg }) stderr
        = "Process killed due to timeout.".toList) :=
  ⟨rfl, rfl, rfl, rfl, fun _ _ => rfl⟩

/-- C6: when every per-dataset pipeline succeeds, the estimate task
finishes with the sum of the per-dataset parsed sizes; in particular,
two independent datasets with sizes X and Y yield X + Y. -/
theorem C6_size_additivity (pairs : List (DatasetEnv × Nat))
    (h : ∀ p ∈ pairs, pipelineOutcome p.1 = .ok p.2) :
    estimateTask (pairs.map Prod.fst) = .ok ((pairs.map Prod.snd).sum) := by
  unfold estimateTask
  rw [firstPipelineError_none pairs h, foldl_sizes pairs h 0]
  rw [Nat.zero_add]

/-- C6 (witness): two all-successful datasets whose dry-run outputs
parse to 10 and 20 produce a final size of 30. -/
theorem C6_size_additivity_witness :
    (∀ p ∈ [(okDatasetEnv "size 10".toList, 10),
            (okDatasetEnv "size 20".toList, 20)],
      pipelineOutcome p.1 = .ok p.2) ∧
    estimateTask ([(okDatasetEnv "size 10".toList, 10),
        (okDatasetEnv "size 20".toList, 20)].map Prod.fst) = .ok 30 :=
  by
  constructor
  · intro p hp
    rcases List.mem_cons.mp hp with h | hp2
    · rw [h]
      rfl
    · rcases List.mem_cons.mp hp2 with h | h3
      · rw [h]
        rfl
      · cases h3
  · have h := C6_size_additivity
      [(okDatasetEnv "size 10".toList, 10), (okDatasetEnv "size 20".toList, 20)]
      (by
        intro p hp
        rcases List.mem_cons.mp hp with h | hp2
        · rw [h]
          rfl
        · rcases List.mem_cons.mp hp2 with h | h3
          · rw [h]
            rfl
          · cases h3)
    simpa using h

/-- C7: deleting a snapshot succeeds (no error to the callback) when
the destroy command fails with stderr containing "could not find any
snapshots to destroy", fails with the translated zfs error in every
other command-failure case, and succeeds when the command succeeds. -/
theorem C7_idempotent_delete (e : ExecErr) (stderr : JStr) :
    (occursIn notFoundPattern stderr = true →
      deleteSnapshotCb (some e) stderr = none) ∧
    (occursIn notFoundPattern stderr = false →
      deleteSnapshotCb (some e) stderr
        = some (zfsError "zfs snapshot destroy failure".toList (some e) stderr)) ∧
    deleteSnapshotCb none stderr = none := by
  refine ⟨?_, ?_, ?_⟩
  · intro h
    simp [deleteSnapshotCb, h]
  · intro h
    simp [deleteSnapshotCb, h]
  · simp [deleteSnapshotCb]

/-- C7 (witness): a concrete missing-snapshot failure is swallowed,
and a concrete other failure surfaces as a zfs error. -/
theorem C7_idempotent_delete_witness :
    occursIn notFoundPattern
      "could not find any snapshots to destroy\n".toList = true ∧
    deleteSnapshotCb (some { killed := false, message := "exit 1".toList })
      "could not find any snapshots to destroy\n".toList = none ∧
    occursIn notFoundPattern "dataset is busy".toList = false ∧
    deleteSnapshotCb (some { killed := false, message := "exit 1".toList })
      "dataset is busy".toList
      = some (zfsError "zfs snapshot destroy failure".toList
          (some { killed := false, message := "exit 1".toList })
          "dataset is busy".toList) :=
  ⟨by decide,
   (C7_idempotent_delete { killed := false, message := "exit 1".toList }
     "could not find any snapshots to destroy\n".toList).1 (by decide),
   by decide,
   (C7_idempotent_delete { killed := false, message := "exit 1".toList }
     "dataset is busy".toList).2.1 (by decide)⟩

/-- C8: the kill path requires the substring `/machine-migrate.js` in
the target's argv, and that substring occurs in neither spawned worker
path `<dir>/../bin/machine-migrate-send.js` nor
`<dir>/../bin/machine-migrate-receive.js` (for any directory not
containing it itself); a target whose argv equals either spawn path is
therefore never signalled and the task finishes successfully. -/
theorem C8_kill_never_matches_worker_paths (dirname : JStr) (pid : Nat)
    (ppid : JStr) (env : KillEnv)
    (hd : occursIn killArgvPattern dirname = false)
    (hargv : env.argvContent = some (migrateSendBin dirname) ∨
             env.argvContent = some (migrateReceiveBin dirname)) :
    (killChild { pid := some pid, ppid := ppid } env).signalSent = false ∧
    (killChild { pid := some pid, ppid := ppid } env).outcome = .finish () := by
  have hargvFalse : checkArgv env = false := by
    rcases hargv with h | h
    · simp only [checkArgv, h]
      unfold migrateSendBin
      exact occursIn_append_false killArgvPattern _ (by decide)
        (by decide) dirname hd
    · simp only [checkArgv, h]
      unfold migrateReceiveBin
      exact occursIn_append_false killArgvPattern _ (by decide)
        (by decide) dirname hd
  rw [killChild_eq]
  constructor
  · simp [hargvFalse]
  · rfl

/-- C8 (witness): a realistic tasks directory, with the target's argv
equal to the send worker's spawn path: no signal, successful finish. -/
theorem C8_kill_never_matches_worker_paths_witness :
    occursIn killArgvPattern
      "/opt/smartdc/agents/lib/node_modules/cn-agent/lib/backends/smartos/tasks".toList
      = false ∧
    (killChild { pid := some 1234, ppid := "1000".toList }
      { processAlive := true, psOutput := some "1000 global".toList
        argvContent := some (migrateSendBin
          "/opt/smartdc/agents/lib/node_modules/cn-agent/lib/backends/smartos/tasks".toList)
        killOk := true }).signalSent = false :=
  ⟨by decide,
   (C8_kill_never_matches_worker_paths
     "/opt/smartdc/agents/lib/node_modules/cn-agent/lib/backends/smartos/tasks".toList
     1234 "1000".toList
     { processAlive := true, psOutput := some "1000 global".toList
       argvContent := some (migrateSendBin
         "/opt/smartdc/agents/lib/node_modules/cn-agent/lib/backends/smartos/tasks".toList)
       killOk := true }
     (by decide) (Or.inl rfl)).1⟩

/-- C9: if the worker exits before any result message and no stderr
data was ever received, the task is failed with the exit-code/signal
message and a detail equal to the literal text "undefined" — the
stringification of the never-assigned `limitedStderr` buffer. -/
theorem C9_undefined_detail_on_silent_exit (p : Nat) (code signal : JStr) :
    (runSession p [SessionEvent.exited code signal]).completions
      = [Completion.fatal (exitMessage code signal) (some "undefined".toList)] := rfl

/-- C10: the synchronous direct behaviors (filesystem mount,
do-not-inventory update, autoboot update) fail the task with message
exactly "undefined" when the external command throws, because the
output variable stringified into the fatal message is never assigned
on that path. -/
theorem C10_undefined_fatal_message :
    setupFilesystem (.error ()) = .fatal "undefined".toList ∧
    setDoNotInventory (.error ()) = .fatal "undefined".toList ∧
    setAutoboot (.error ()) = .fatal "undefined".toList := ⟨rfl, rfl, rfl⟩

end MachineMigrate
